import Mathlib

/-!
Verification of the Nano-Banana photo-editing client's core state machinery:
the Generation Gateway response classification (`services/geminiService.ts`),
the edit-history engine, the batch orchestrator and the comparison slider
(main application component).  All definitions are shallow embeddings of the
TypeScript source; images are represented by their data-URL strings.
-/

namespace NanoBanana

/-- An image, represented by its data-URL / binary content string. -/
abbrev Img := String

/-! ## Generation Gateway response model (`services/geminiService.ts`)

The shapes mirror the fields of `GenerateContentResponse` that
`handleApiResponse` reads: `promptFeedback?.blockReason`,
`candidates?.[0]?.content?.parts` (each part optionally carrying
`inlineData`), `candidates?.[0]?.finishReason`, and `response.text`.
Optional / possibly-absent fields are `Option`s. -/

structure InlineData where
  mimeType : String
  data : String
  deriving DecidableEq, Repr

structure RespPart where
  inlineData : Option InlineData
  deriving DecidableEq, Repr

structure RespContent where
  parts : Option (List RespPart)
  deriving DecidableEq, Repr

structure Candidate where
  content : Option RespContent
  finishReason : Option String
  deriving DecidableEq, Repr

structure PromptFeedback where
  blockReason : Option String
  blockReasonMessage : Option String
  deriving DecidableEq, Repr

structure GenerateContentResponse where
  promptFeedback : Option PromptFeedback
  candidates : Option (List Candidate)
  text : Option String
  deriving DecidableEq, Repr

/-- JavaScript truthiness for an optional string: `undefined`, `null` and the
empty string are falsy.  Returns the string when truthy. -/
def strTruthy (s : Option String) : Option String :=
  match s with
  | none => none
  | some t => if t = "" then none else some t

/-- `response.promptFeedback?.blockReason`, filtered through JS truthiness
exactly as the guard `if (response.promptFeedback?.blockReason)` does. -/
def blockReasonOf (r : GenerateContentResponse) : Option String :=
  strTruthy (r.promptFeedback.bind (·.blockReason))

/-- `response.candidates?.[0]`. -/
def firstCandidate (r : GenerateContentResponse) : Option Candidate :=
  r.candidates.bind (·.head?)

/-- `response.candidates?.[0]?.content?.parts?.find(part => part.inlineData)`
followed by the `imagePartFromResponse?.inlineData` read: the inline data of
the first part that carries one. -/
def imagePartOf (r : GenerateContentResponse) : Option InlineData :=
  ((((firstCandidate r).bind (·.content)).bind (·.parts)).bind
    (List.find? (fun p => p.inlineData.isSome))).bind (·.inlineData)

/-- `response.candidates?.[0]?.finishReason` under the truthiness guard
`if (finishReason && ...)`. -/
def finishReasonOf (r : GenerateContentResponse) : Option String :=
  strTruthy ((firstCandidate r).bind (·.finishReason))

/-- Executable model of JavaScript `String.prototype.trim`: strip leading
and trailing whitespace from the character sequence. -/
def trimmed (s : String) : String :=
  String.mk (((s.data.dropWhile Char.isWhitespace).reverse.dropWhile
    Char.isWhitespace).reverse)

/-- `response.text?.trim()` under the truthiness test
`textFeedback ? ... : ...`. -/
def textFeedbackOf (r : GenerateContentResponse) : Option String :=
  strTruthy (r.text.map trimmed)

/-- The classified failures `handleApiResponse` can throw. -/
inductive ApiFailure where
  | blockedRequest (reason : String) (message : Option String)
  | abnormalStop (reason : String)
  | noImageProduced (textFeedback : Option String)
  deriving DecidableEq, Repr

/-- The data URL assembled on the success path:
`data:\x7bmimeType\x7d;base64,\x7bdata\x7d`. -/
def dataUrlOf (d : InlineData) : String :=
  "data:" ++ d.mimeType ++ ";base64," ++ d.data

/-- Shallow embedding of `handleApiResponse` (geminiService.ts): check the
prompt-block reason first, then look for an inline-image part, then a
non-`STOP` finish reason, and finally fall back to the empty-response
failure carrying any text feedback.  Throwing is modelled by `Except`. -/
def handleApiResponse (r : GenerateContentResponse) : Except ApiFailure String :=
  match blockReasonOf r with
  | some reason =>
      .error (.blockedRequest reason (r.promptFeedback.bind (·.blockReasonMessage)))
  | none =>
      match imagePartOf r with
      | some d => .ok (dataUrlOf d)
      | none =>
          match finishReasonOf r with
          | some fr =>
              if fr ≠ "STOP" then .error (.abnormalStop fr)
              else .error (.noImageProduced (textFeedbackOf r))
          | none => .error (.noImageProduced (textFeedbackOf r))

/-- The spec's four-way classification (§4.4 of the specification), written
from its words, to be compared with `handleApiResponse`: 1. blocked
pre-generation; 2. a content part contains image data; 3. stopped for a
reason other than normal completion; 4. normal completion but no image. -/
def specClassification (r : GenerateContentResponse) : Except ApiFailure String :=
  if h : (blockReasonOf r).isSome then
    .error (.blockedRequest ((blockReasonOf r).get h)
      (r.promptFeedback.bind (·.blockReasonMessage)))
  else if h2 : (imagePartOf r).isSome then
    .ok (dataUrlOf ((imagePartOf r).get h2))
  else
    match finishReasonOf r with
    | some fr =>
        if fr = "STOP" then .error (.noImageProduced (textFeedbackOf r))
        else .error (.abnormalStop fr)
    | none => .error (.noImageProduced (textFeedbackOf r))

/-! ## Editor application state (main application component)

The `useState` fields of the `App` component that the claims touch.  The
history cursor `historyIndex` is a JavaScript number initialised to `-1`, so
it is an `Int`.  The compare slider position is a fraction in `[0, 100]`,
modelled over `ℚ`. -/

structure RectCrop where
  x : ℚ
  y : ℚ
  width : ℚ
  height : ℚ
  deriving DecidableEq, Repr

structure Progress where
  processed : ℕ
  total : ℕ
  deriving DecidableEq, Repr

structure EditorState where
  history : List Img
  historyIndex : Int
  prompt : String
  editHotspot : Option (Int × Int)
  displayHotspot : Option (ℚ × ℚ)
  crop : Option RectCrop
  completedCrop : Option RectCrop
  isCompareModeActive : Bool
  compareSliderPosition : ℚ
  isDraggingComparer : Bool
  batchImages : List Img
  processedBatchImages : List (Option Img)
  processingProgress : Option Progress
  isBatchProcessingComplete : Bool
  isLoading : Bool
  error : Option String
  deriving DecidableEq, Repr

/-- `history[historyIndex] ?? null`: a negative JavaScript index reads
`undefined`, so the current image is absent unless `0 ≤ historyIndex` and the
index is inside the list. -/
def currentImage (s : EditorState) : Option Img :=
  if 0 ≤ s.historyIndex then s.history.get? s.historyIndex.toNat else none

/-- `addImageToHistory`: truncate with `history.slice(0, historyIndex + 1)`,
push the new file, move the cursor to the new last index, and reset the
transient crop and compare-mode flags.  The cursor is never below -1 in any
reachable state, so the negative-end semantics of `slice` play no role and
the bound is `(historyIndex + 1).toNat`. -/
def addImageToHistory (s : EditorState) (newImageFile : Img) : EditorState :=
  let newHistory := s.history.take (s.historyIndex + 1).toNat ++ [newImageFile]
  { s with
    history := newHistory
    historyIndex := (newHistory.length : Int) - 1
    crop := none
    completedCrop := none
    isCompareModeActive := false }

/-- `canUndo`: `historyIndex > 0`. -/
def canUndo (s : EditorState) : Bool := 0 < s.historyIndex

/-- `canRedo`: `historyIndex < history.length - 1`. -/
def canRedo (s : EditorState) : Bool := s.historyIndex < (s.history.length : Int) - 1

/-- `handleUndo`: guarded by `canUndo`; decrements the cursor and clears the
hotspot pair. -/
def handleUndo (s : EditorState) : EditorState :=
  if canUndo s then
    { s with historyIndex := s.historyIndex - 1, editHotspot := none, displayHotspot := none }
  else s

/-- `handleRedo`: guarded by `canRedo`; increments the cursor and clears the
hotspot pair. -/
def handleRedo (s : EditorState) : EditorState :=
  if canRedo s then
    { s with historyIndex := s.historyIndex + 1, editHotspot := none, displayHotspot := none }
  else s

/-- `handleReset`: when the history is non-empty, move the cursor to 0, clear
the error and hotspot, and leave compare mode off; the version list itself is
not touched. -/
def handleReset (s : EditorState) : EditorState :=
  if 0 < s.history.length then
    { s with
      historyIndex := 0
      error := none
      editHotspot := none
      displayHotspot := none
      isCompareModeActive := false }
  else s

/-- `handleToggleCompareMode`: toggles the flag; when turning compare mode on
the slider position is reset to 50. -/
def handleToggleCompareMode (s : EditorState) : EditorState :=
  if s.isCompareModeActive then { s with isCompareModeActive := false }
  else { s with isCompareModeActive := true, compareSliderPosition := 50 }

/-- `handleComparerActionMove`: while dragging, recompute the slider position
from the pointer `clientX` and the container rectangle as
`clamp(0, 100, (clientX - rect.left) / rect.width * 100)`; otherwise ignore
the event.  The container rectangle is passed in because the source reads it
from a DOM ref. -/
def handleComparerActionMove (s : EditorState) (clientX rectLeft rectWidth : ℚ) :
    EditorState :=
  if s.isDraggingComparer then
    let x := clientX - rectLeft
    let position := max 0 (min 100 (x / rectWidth * 100))
    { s with compareSliderPosition := position }
  else s

/-! ## Edit-operation handlers

Each handler first runs its input-validation guards, then issues the gateway
call and awaits it; the awaited outcome is passed in as a
`Except ApiFailure Img` value (the thrown classification on failure, the
returned data URL on success).  `dataURLtoFile` only repackages the data URL
as a `File`, so the appended version is the URL itself. -/

/-- The `Error` message text thrown by `handleApiResponse` for each
classified failure, with the operation context interpolated. -/
def apiFailureMessage (context : String) : ApiFailure → String
  | .blockedRequest reason message =>
      "Request was blocked. Reason: " ++ reason ++ ". " ++ message.getD ""
  | .abnormalStop reason =>
      "Image generation for " ++ context ++ " stopped unexpectedly. Reason: "
        ++ reason ++ ". This often relates to safety settings."
  | .noImageProduced tf =>
      "The AI model did not return an image for the " ++ context ++ ". " ++
        (match tf with
         | some t => "The model responded with text: \"" ++ t ++ "\""
         | none => "This can happen due to safety filters or if the request is too complex. Please try rephrasing your prompt to be more direct.")

/-- `handleGenerate` (localized edit): guards for a current image, a
non-blank prompt and a selected hotspot; on success appends the new version
and clears both hotspots; on failure sets the user-facing error string and
leaves everything else alone.  `setIsLoading(false)` runs in `finally`. -/
def handleGenerate (s : EditorState) (result : Except ApiFailure Img) : EditorState :=
  match currentImage s with
  | none => { s with error := some "No image loaded to edit." }
  | some _ =>
      if trimmed s.prompt = "" then
        { s with error := some "Please enter a description for your edit." }
      else
        match s.editHotspot with
        | none => { s with error := some "Please click on the image to select an area to edit." }
        | some _ =>
            match result with
            | .ok url =>
                { addImageToHistory { s with error := none } url with
                  editHotspot := none
                  displayHotspot := none
                  isLoading := false }
            | .error f =>
                { s with
                  error := some ("Failed to generate the image. " ++ apiFailureMessage "edit" f)
                  isLoading := false }

/-- `handleApplyFilter`: guards for a current image; on success appends the
filtered version; on failure sets the user-facing error string. -/
def handleApplyFilter (s : EditorState) (result : Except ApiFailure Img) : EditorState :=
  match currentImage s with
  | none => { s with error := some "No image loaded to apply a filter to." }
  | some _ =>
      match result with
      | .ok url =>
          { addImageToHistory { s with error := none } url with isLoading := false }
      | .error f =>
          { s with
            error := some ("Failed to apply the filter. " ++ apiFailureMessage "filter" f)
            isLoading := false }

/-- `handleApplyAdjustment`: same shape as the filter handler. -/
def handleApplyAdjustment (s : EditorState) (result : Except ApiFailure Img) : EditorState :=
  match currentImage s with
  | none => { s with error := some "No image loaded to apply an adjustment to." }
  | some _ =>
      match result with
      | .ok url =>
          { addImageToHistory { s with error := none } url with isLoading := false }
      | .error f =>
          { s with
            error := some ("Failed to apply the adjustment. " ++ apiFailureMessage "adjustment" f)
            isLoading := false }

/-- `handleEnhanceQuality`: same shape as the filter handler. -/
def handleEnhanceQuality (s : EditorState) (result : Except ApiFailure Img) : EditorState :=
  match currentImage s with
  | none => { s with error := some "No image loaded to enhance." }
  | some _ =>
      match result with
      | .ok url =>
          { addImageToHistory { s with error := none } url with isLoading := false }
      | .error f =>
          { s with
            error := some ("Failed to enhance image. " ++ apiFailureMessage "enhancement" f)
            isLoading := false }

/-! ## Batch orchestrator (`handleBatchApply`)

The handler maps every batch image to a concurrent generator invocation and
collects them with `Promise.allSettled`.  Each invocation settles
independently, in an arbitrary completion order; `allSettled` stores each
settled result in the slot of its own index and returns the slots in input
order.  We model the settlement phase explicitly: a settlement event is a
pair (invocation index, settled result), the run processes the events in
completion order, and the collected result list reads the slots back in
index order. -/

/-- One settlement writes its result into its own slot. -/
def settleEvent (slots : ℕ → Option (Except String Img))
    (e : ℕ × Except String Img) : ℕ → Option (Except String Img) :=
  fun j => if j = e.1 then some e.2 else slots j

/-- Process a list of settlement events in completion order, starting from
all-pending slots. -/
def runSettlement (events : List (ℕ × Except String Img)) :
    ℕ → Option (Except String Img) :=
  events.foldl settleEvent (fun _ => none)

/-- What `Promise.allSettled` hands back: the `n` slots read in input order
(after a complete settlement every slot is filled, so the default is never
read). -/
def collectedResults (n : ℕ) (events : List (ℕ × Except String Img)) :
    List (Except String Img) :=
  (List.range n).map fun i => (runSettlement events i).getD (Except.error "pending")

/-- The aggregate user-facing batch warning.  It is a function of the two
counts alone: no per-item failure detail reaches it. -/
def batchFailureMessage (failedCount total : ℕ) : String :=
  toString failedCount ++ " out of " ++ toString total ++
    " image(s) could not be processed. They may have been blocked due to safety policies."

/-- `handleBatchApply` after all invocations settled: fulfilled results
become their files, rejected ones become `null`; the new list replaces the
previous output list; loading is cleared, completion is flagged, progress is
cleared; if any item failed, the aggregate count message is set (the error
was reset to `null` when the run started). -/
def handleBatchApply (s : EditorState) (results : List (Except String Img)) :
    EditorState :=
  let newProcessedImages := results.map fun r =>
    match r with
    | .ok f => some f
    | .error _ => none
  let failedCount := (newProcessedImages.filter (fun o => o = none)).length
  { s with
    processedBatchImages := newProcessedImages
    isLoading := false
    isBatchProcessingComplete := true
    processingProgress := none
    error :=
      if 0 < failedCount then
        some (batchFailureMessage failedCount s.batchImages.length)
      else none }

/-- A concrete editor state used as the base of the concrete evaluations:
freshly seeded with a single uploaded image. -/
def baseState : EditorState :=
  { history := ["orig"], historyIndex := 0, prompt := "", editHotspot := none,
    displayHotspot := none, crop := none, completedCrop := none,
    isCompareModeActive := false, compareSliderPosition := 50,
    isDraggingComparer := false, batchImages := [], processedBatchImages := [],
    processingProgress := none, isBatchProcessingComplete := false,
    isLoading := false, error := none }

/-! ## Theorems -/

/-- C1: every Generation Gateway response is classified with the four-way
precedence: a prompt-block reason wins even over a present image part, then
inline image data is returned as a data URL, then a truthy non-STOP finish
reason yields the abnormal-stop failure, and otherwise the no-image failure
carries the trimmed text feedback when present.  Stated as: the embedded
`handleApiResponse` coincides with the classifier written from the spec's
four numbered rules. -/
theorem gateway_classification_order (r : GenerateContentResponse) :
    handleApiResponse r = specClassification r := by
  unfold handleApiResponse specClassification
  cases hb : blockReasonOf r with
  | some reason => simp [hb]
  | none =>
      cases hi : imagePartOf r with
      | some d => simp [hb, hi]
      | none =>
          cases hf : finishReasonOf r with
          | some fr =>
              by_cases hfr : fr = "STOP" <;> simp [hb, hi, hf, hfr]
          | none => simp [hb, hi, hf]

/-- A helper for cursor arithmetic: the JavaScript `historyIndex + 1` used as
a slice bound. -/
theorem toNat_add_one (i : ℕ) : ((i : Int) + 1).toNat = i + 1 := by omega

/-- C2: with the cursor at a valid index `i`, an append keeps exactly the
versions at indices `0..i`, discards everything after them, appends the new
version, and moves the cursor to the new last index — the redo branch is
destroyed, so the history stays linear. -/
theorem history_append_truncates (s : EditorState) (v : Img) (i : ℕ)
    (hcur : s.historyIndex = (i : Int)) (hlt : i < s.history.length) :
    (addImageToHistory s v).history = s.history.take (i + 1) ++ [v] ∧
    (addImageToHistory s v).history.length = i + 2 ∧
    (addImageToHistory s v).historyIndex =
      ((addImageToHistory s v).history.length : Int) - 1 ∧
    (addImageToHistory s v).historyIndex = (i : Int) + 1 := by
  have htake : (s.history.take (i + 1)).length = i + 1 := by
    rw [List.length_take]
    omega
  refine ⟨?_, ?_, ?_, ?_⟩
  · simp [addImageToHistory, hcur, toNat_add_one]
  · simp [addImageToHistory, hcur, toNat_add_one, htake]
  · simp [addImageToHistory]
  · simp [addImageToHistory, hcur, toNat_add_one, htake]

/-- Witness for C2 at a concrete state: history `[a, b, c]`, cursor 1,
appending `d` yields `[a, b, d]` with cursor 2. -/
theorem history_append_truncates_witness :
    (addImageToHistory
      { baseState with history := ["a", "b", "c"], historyIndex := 1 }
      "d").history = ["a", "b", "d"] := by
  have h := history_append_truncates
    { baseState with history := ["a", "b", "c"], historyIndex := 1 }
    "d" 1 rfl (by decide)
  exact h.1.trans rfl

/-- A concrete pre-append state for evaluating the append side effects: a
pending hotspot, compare mode on, slider dragged to 70. -/
def preAppendState : EditorState :=
  { baseState with
    editHotspot := some (3, 4)
    compareSliderPosition := 70
    isCompareModeActive := true }

/-- C3 counterexample: a successful filter application performs an append,
yet the pending hotspot survives it and the slider position stays at 70 —
the claim that every append clears the hotspot and resets the slider to 50
is false.  Only compare mode is deactivated. -/
theorem append_side_effects_counterexample :
    (handleApplyFilter preAppendState (.ok "b")).history = ["orig", "b"] ∧
    (handleApplyFilter preAppendState (.ok "b")).editHotspot = some (3, 4) ∧
    (handleApplyFilter preAppendState (.ok "b")).compareSliderPosition = 70 := by
  refine ⟨rfl, rfl, ?_⟩
  norm_num [handleApplyFilter, addImageToHistory, currentImage, preAppendState,
    baseState]

/-- C3 amended: every append deactivates compare mode and clears the crop
selections, but leaves the pending hotspot and the slider position
untouched; the hotspot is cleared by the localized-edit path after its own
append; the slider position is re-established at 50 when compare mode is
next activated, not at append time. -/
theorem append_side_effects_amended (s : EditorState) (v r : Img) :
    (addImageToHistory s v).isCompareModeActive = false ∧
    (addImageToHistory s v).crop = none ∧
    (addImageToHistory s v).completedCrop = none ∧
    (addImageToHistory s v).editHotspot = s.editHotspot ∧
    (addImageToHistory s v).compareSliderPosition = s.compareSliderPosition ∧
    ((currentImage s).isSome → trimmed s.prompt ≠ "" → s.editHotspot.isSome →
      (handleGenerate s (.ok r)).editHotspot = none ∧
      (handleGenerate s (.ok r)).displayHotspot = none) ∧
    (s.isCompareModeActive = false →
      (handleToggleCompareMode s).compareSliderPosition = 50 ∧
      (handleToggleCompareMode s).isCompareModeActive = true) := by
  refine ⟨by simp [addImageToHistory], by simp [addImageToHistory],
    by simp [addImageToHistory], by simp [addImageToHistory],
    by simp [addImageToHistory], ?_, ?_⟩
  · intro h1 h2 h3
    obtain ⟨img, himg⟩ := Option.isSome_iff_exists.mp h1
    obtain ⟨pt, hpt⟩ := Option.isSome_iff_exists.mp h3
    constructor <;> simp [handleGenerate, himg, h2, hpt]
  · intro h
    constructor <;> simp [handleToggleCompareMode, h]

/-- Witness for the amended C3 at a concrete state: a localized edit with a
prompt and hotspot clears the hotspot after appending. -/
theorem append_side_effects_amended_witness :
    (handleGenerate
      { baseState with prompt := "make sky blue", editHotspot := some (10, 10) }
      (.ok "b")).editHotspot = none := by
  have h := append_side_effects_amended
    { baseState with prompt := "make sky blue", editHotspot := some (10, 10) }
    "b" "b"
  exact (h.2.2.2.2.2.1 (by decide) (by decide) (by decide)).1

/-- A history-navigation operation: one press of Undo or Redo. -/
inductive NavOp where
  | undo
  | redo
  deriving DecidableEq, Repr

/-- Apply one navigation operation. -/
def applyNav (op : NavOp) (s : EditorState) : EditorState :=
  match op with
  | .undo => handleUndo s
  | .redo => handleRedo s

/-- Apply a sequence of navigation operations in order. -/
def applyNavs (ops : List NavOp) (s : EditorState) : EditorState :=
  ops.foldl (fun t op => applyNav op t) s

/-- Neither undo nor redo changes the version list. -/
theorem applyNav_history (op : NavOp) (s : EditorState) :
    (applyNav op s).history = s.history := by
  cases op <;> simp [applyNav, handleUndo, handleRedo] <;> split <;> rfl

/-- One navigation step keeps a valid cursor valid. -/
theorem applyNav_bounds (op : NavOp) (s : EditorState)
    (h0 : 0 ≤ s.historyIndex)
    (h1 : s.historyIndex ≤ (s.history.length : Int) - 1) :
    0 ≤ (applyNav op s).historyIndex ∧
    (applyNav op s).historyIndex ≤ ((applyNav op s).history.length : Int) - 1 := by
  cases op <;>
    simp only [applyNav, handleUndo, handleRedo, canUndo, canRedo] <;>
    split <;> simp_all <;> omega

/-- C4: on a non-empty history with a valid cursor, undo at cursor 0 and
redo at the last index are complete no-ops, otherwise undo decrements and
redo increments the cursor; and after any sequence of undo/redo presses the
cursor is still inside `[0, length - 1]` over the unchanged version list. -/
theorem undo_redo_bounds (s : EditorState)
    (h0 : 0 ≤ s.historyIndex)
    (h1 : s.historyIndex ≤ (s.history.length : Int) - 1) :
    (s.historyIndex = 0 → handleUndo s = s) ∧
    (s.historyIndex = (s.history.length : Int) - 1 → handleRedo s = s) ∧
    (0 < s.historyIndex → (handleUndo s).historyIndex = s.historyIndex - 1) ∧
    (s.historyIndex < (s.history.length : Int) - 1 →
      (handleRedo s).historyIndex = s.historyIndex + 1) ∧
    (∀ ops : List NavOp,
      (applyNavs ops s).history = s.history ∧
      0 ≤ (applyNavs ops s).historyIndex ∧
      (applyNavs ops s).historyIndex ≤ (s.history.length : Int) - 1) := by
  refine ⟨?_, ?_, ?_, ?_, ?_⟩
  · intro h
    simp [handleUndo, canUndo, h]
  · intro h
    have hc : canRedo s = false := by
      simp only [canRedo, decide_eq_false_iff_not, not_lt]
      omega
    simp [handleRedo, hc]
  · intro h
    simp [handleUndo, canUndo, h]
  · intro h
    simp [handleRedo, canRedo, h]
  · intro ops
    induction ops generalizing s with
    | nil => exact ⟨rfl, h0, h1⟩
    | cons op rest ih =>
        have hh := applyNav_history op s
        have hb := applyNav_bounds op s h0 h1
        have hres := ih (applyNav op s) hb.1 hb.2
        rw [hh] at hres
        simpa [applyNavs] using hres

/-- Witness for C4: a three-version history with the cursor at the last
index; redo is a no-op there and undo steps back to index 1. -/
theorem undo_redo_bounds_witness :
    handleRedo { baseState with history := ["a", "b", "c"], historyIndex := 2 } =
      { baseState with history := ["a", "b", "c"], historyIndex := 2 } ∧
    (handleUndo { baseState with history := ["a", "b", "c"], historyIndex := 2 }).historyIndex = 1 := by
  have h := undo_redo_bounds
    { baseState with history := ["a", "b", "c"], historyIndex := 2 }
    (by decide) (by decide)
  exact ⟨h.2.1 (by decide), (h.2.2.1 (by decide)).trans (by decide)⟩

/-- Iterated redo from a valid cursor advances one index per press while
room remains, leaving the version list unchanged. -/
theorem redo_iterate (k : ℕ) (t : EditorState)
    (hk : t.historyIndex + (k : Int) ≤ (t.history.length : Int) - 1) :
    (handleRedo^[k] t).history = t.history ∧
    (handleRedo^[k] t).historyIndex = t.historyIndex + (k : Int) := by
  induction k generalizing t with
  | zero => simp
  | succ k ih =>
      have hcan : canRedo t = true := by
        simp only [canRedo, decide_eq_true_eq]
        push_cast at hk
        omega
      have hhist : (handleRedo t).history = t.history := by
        simp [handleRedo, hcan]
      have hidx : (handleRedo t).historyIndex = t.historyIndex + 1 := by
        simp [handleRedo, hcan]
      have hb : (handleRedo t).historyIndex + (k : Int) ≤
          ((handleRedo t).history.length : Int) - 1 := by
        rw [hhist, hidx]
        push_cast at hk ⊢
        omega
      have hres := ih (handleRedo t) hb
      rw [Function.iterate_succ_apply]
      constructor
      · rw [hres.1, hhist]
      · rw [hres.2, hidx]
        push_cast
        ring

/-- C5: reset on an empty history is a complete no-op; on a non-empty
history it moves the cursor to 0 and leaves the version list intact, so `k`
redo presses afterwards reach index `k` for any `k` up to the last index,
while the next append truncates down to the original plus the new
version. -/
theorem reset_to_origin (s : EditorState) :
    (s.history = [] → handleReset s = s) ∧
    (s.history ≠ [] →
      (handleReset s).historyIndex = 0 ∧
      (handleReset s).history = s.history ∧
      (∀ k : ℕ, (k : Int) ≤ (s.history.length : Int) - 1 →
        (handleRedo^[k] (handleReset s)).history = s.history ∧
        (handleRedo^[k] (handleReset s)).historyIndex = (k : Int)) ∧
      (∀ v, (addImageToHistory (handleReset s) v).history =
        s.history.take 1 ++ [v])) := by
  constructor
  · intro h
    simp [handleReset, h]
  · intro h
    have hlen : 0 < s.history.length := List.length_pos.mpr h
    have hridx : (handleReset s).historyIndex = 0 := by
      simp [handleReset, hlen]
    have hrhist : (handleReset s).history = s.history := by
      simp [handleReset, hlen]
    refine ⟨hridx, hrhist, ?_, ?_⟩
    · intro k hk
      have := redo_iterate k (handleReset s) (by rw [hridx, hrhist]; omega)
      rw [hrhist, hridx] at this
      simpa using this
    · intro v
      simp [addImageToHistory, hridx, hrhist]

/-- Witness for C5 at a concrete state: history `[a, b, c]` with cursor 2;
reset moves the cursor to 0 and two redo presses climb back to 2. -/
theorem reset_to_origin_witness :
    (handleReset { baseState with history := ["a", "b", "c"], historyIndex := 2 }).historyIndex = 0 ∧
    (handleRedo^[2] (handleReset { baseState with history := ["a", "b", "c"], historyIndex := 2 })).historyIndex = 2 := by
  have h := (reset_to_origin
    { baseState with history := ["a", "b", "c"], historyIndex := 2 }).2 (by decide)
  exact ⟨h.1, (h.2.2.1 2 (by decide)).2⟩

/-- A slot no settlement event writes to keeps its accumulator value. -/
theorem foldl_settle_not_mem (es : List (ℕ × Except String Img))
    (acc : ℕ → Option (Except String Img)) (i : ℕ)
    (h : ∀ r, (i, r) ∉ es) :
    es.foldl settleEvent acc i = acc i := by
  induction es generalizing acc with
  | nil => rfl
  | cons e es ih =>
      obtain ⟨j, r⟩ := e
      rw [List.foldl_cons, ih _ (fun q hq => h q (List.mem_cons_of_mem _ hq))]
      simp only [settleEvent]
      split
      · rename_i hij
        subst hij
        exact absurd (List.mem_cons_self (i, r) es) (h r)
      · rfl

/-- If slot `i` is written and every write to it carries the same value,
the settlement ends with that value in the slot. -/
theorem foldl_settle_mem (es : List (ℕ × Except String Img))
    (acc : ℕ → Option (Except String Img)) (i : ℕ) (v : Except String Img)
    (hmem : (i, v) ∈ es) (huniq : ∀ r, (i, r) ∈ es → r = v) :
    es.foldl settleEvent acc i = some v := by
  induction es generalizing acc with
  | nil => cases hmem
  | cons e es ih =>
      rw [List.foldl_cons]
      by_cases hin : (i, v) ∈ es
      · exact ih _ hin (fun r hr => huniq r (List.mem_cons_of_mem _ hr))
      · have he : e = (i, v) := by
          rcases List.mem_cons.mp hmem with h1 | h2
          · exact h1.symm
          · exact absurd h2 hin
        subst he
        have hnone : ∀ r, (i, r) ∉ es := by
          intro r hr
          have hrv := huniq r (List.mem_cons_of_mem _ hr)
          subst hrv
          exact hin hr
        rw [foldl_settle_not_mem es _ i hnone]
        simp [settleEvent]

/-- After a complete settlement — exactly one event per invocation, in any
completion order — slot `i` holds invocation `i`'s own result. -/
theorem runSettlement_complete (n : ℕ) (outcome : ℕ → Except String Img)
    (events : List (ℕ × Except String Img))
    (hperm : events.Perm ((List.range n).map fun i => (i, outcome i)))
    (i : ℕ) (hi : i < n) :
    runSettlement events i = some (outcome i) := by
  apply foldl_settle_mem
  · exact hperm.mem_iff.mpr (List.mem_map.mpr ⟨i, List.mem_range.mpr hi, rfl⟩)
  · intro r hr
    obtain ⟨j, _, hej⟩ := List.mem_map.mp (hperm.mem_iff.mp hr)
    obtain ⟨h1, h2⟩ := Prod.mk.injEq .. |>.mp hej
    rw [← h2, h1]

/-- The collected `allSettled` results are the per-invocation outcomes in
input order, whatever the completion order was. -/
theorem collectedResults_eq (n : ℕ) (outcome : ℕ → Except String Img)
    (events : List (ℕ × Except String Img))
    (hperm : events.Perm ((List.range n).map fun i => (i, outcome i))) :
    collectedResults n events = (List.range n).map outcome := by
  unfold collectedResults
  apply List.map_congr_left
  intro i hi
  rw [runSettlement_complete n outcome events hperm i (List.mem_range.mp hi)]
  rfl

/-- The slot conversion used by `handleBatchApply` is `Except.toOption`. -/
theorem slot_eq_toOption :
    (fun r : Except String Img => match r with
      | .ok f => some f
      | .error _ => none) = Except.toOption := by
  funext r
  cases r <;> rfl

/-- C6: for a batch over `N` inputs with per-index outcomes settled in any
completion order, the new output list is exactly the outcomes in input
order: it has length `N`, slot `i` is absent precisely when invocation `i`
failed, and it does not depend on the previous output list (a run replaces,
never merges). -/
theorem batch_alignment (s : EditorState) (outcome : ℕ → Except String Img)
    (events : List (ℕ × Except String Img))
    (hperm : events.Perm
      ((List.range s.batchImages.length).map fun i => (i, outcome i))) :
    (handleBatchApply s
        (collectedResults s.batchImages.length events)).processedBatchImages =
      (List.range s.batchImages.length).map (fun i => (outcome i).toOption) ∧
    (handleBatchApply s
        (collectedResults s.batchImages.length events)).processedBatchImages.length =
      s.batchImages.length ∧
    (∀ i, i < s.batchImages.length →
      ((handleBatchApply s
          (collectedResults s.batchImages.length events)).processedBatchImages[i]? =
        some (outcome i).toOption ∧
       ((outcome i).toOption ≠ none ↔ (outcome i).isOk = true))) ∧
    (∀ prior : List (Option Img),
      (handleBatchApply { s with processedBatchImages := prior }
          (collectedResults s.batchImages.length events)).processedBatchImages =
        (handleBatchApply s
          (collectedResults s.batchImages.length events)).processedBatchImages) := by
  have hcoll := collectedResults_eq s.batchImages.length outcome events hperm
  have hmain : (handleBatchApply s
      (collectedResults s.batchImages.length events)).processedBatchImages =
      (List.range s.batchImages.length).map (fun i => (outcome i).toOption) := by
    simp only [handleBatchApply, hcoll, slot_eq_toOption, List.map_map]
    rfl
  refine ⟨hmain, ?_, ?_, ?_⟩
  · rw [hmain]
    simp
  · intro i hi
    constructor
    · rw [hmain, List.getElem?_map, List.getElem?_range hi]
      rfl
    · cases houtcome : outcome i <;> simp [Except.toOption, Except.isOk, Except.toBool]
  · intro prior
    rw [hmain]
    simp only [handleBatchApply, hcoll, slot_eq_toOption, List.map_map]
    rfl

/-- Witness for C6: two batch inputs, invocation 0 succeeds and invocation 1
fails, settling in reversed completion order; the output is positionally
aligned: `[some x, none]`. -/
theorem batch_alignment_witness :
    (handleBatchApply { baseState with batchImages := ["i0", "i1"] }
      (collectedResults 2
        [(1, Except.error "boom"), (0, Except.ok "x")])).processedBatchImages =
      [some "x", none] := by
  have h := batch_alignment { baseState with batchImages := ["i0", "i1"] }
    (fun i => if i = 0 then Except.ok "x" else Except.error "boom")
    [(1, Except.error "boom"), (0, Except.ok "x")]
    (List.Perm.swap (0, Except.ok "x") (1, Except.error "boom") [])
  exact h.1.trans rfl

/-- An output slot is absent exactly when its invocation failed. -/
theorem slot_none_iff (r : Except String Img) :
    decide (r.toOption = none) = !r.isOk := by
  cases r <;> rfl

/-- The failed-slot count computed by `handleBatchApply` equals the number
of failed outcomes. -/
theorem failedCount_eq (results : List (Except String Img)) :
    ((results.map fun r => match r with
        | .ok f => some f
        | .error _ => none).filter (fun o => o = none)).length =
      (results.filter fun r => !r.isOk).length := by
  rw [slot_eq_toOption, List.filter_map, List.length_map]
  congr 1
  apply List.filter_congr
  intro r _
  exact slot_none_iff r

/-- C7: when some batch invocations fail, the succeeded slots keep their
images, the failed slots are absent, and the single user-facing error is the
aggregate message built from the failure count and the batch size alone — no
individual failure detail reaches it. -/
theorem partial_batch_failure (s : EditorState)
    (results : List (Except String Img))
    (hfail : 0 < (results.filter fun r => !r.isOk).length) :
    (handleBatchApply s results).error =
      some (batchFailureMessage (results.filter fun r => !r.isOk).length
        s.batchImages.length) ∧
    (∀ (i : ℕ) (f : Img), results[i]? = some (Except.ok f) →
      (handleBatchApply s results).processedBatchImages[i]? = some (some f)) ∧
    (∀ (i : ℕ) (e : String), results[i]? = some (Except.error e) →
      (handleBatchApply s results).processedBatchImages[i]? = some none) := by
  refine ⟨?_, ?_, ?_⟩
  · simp only [handleBatchApply, failedCount_eq]
    rw [if_pos hfail]
  · intro i f hres
    simp only [handleBatchApply, List.getElem?_map, hres]
    rfl
  · intro i e hres
    simp only [handleBatchApply, List.getElem?_map, hres]
    rfl

/-- Witness for C7: three inputs, only the middle invocation fails; its slot
is absent and the aggregate message counts 1 of 3. -/
theorem partial_batch_failure_witness :
    (handleBatchApply { baseState with batchImages := ["i0", "i1", "i2"] }
      [Except.ok "a", Except.error "blocked", Except.ok "c"]).error =
      some (batchFailureMessage 1 3) ∧
    (handleBatchApply { baseState with batchImages := ["i0", "i1", "i2"] }
      [Except.ok "a", Except.error "blocked", Except.ok "c"]).processedBatchImages[1]? =
      some none := by
  have h := partial_batch_failure
    { baseState with batchImages := ["i0", "i1", "i2"] }
    [Except.ok "a", Except.error "blocked", Except.ok "c"]
    (by decide)
  exact ⟨h.1.trans rfl, h.2.2 1 "blocked" rfl⟩

/-- Filtering an all-`none` list for `none` keeps everything. -/
theorem filter_none_replicate (n : ℕ) :
    ((List.replicate n (none : Option Img)).filter (fun o => o = none)).length = n := by
  induction n with
  | zero => rfl
  | succ n ih => simp [List.replicate_succ, ih]

/-- C10: when every invocation of a non-empty batch fails, the orchestrator
behaves uniformly with the partial case: the output is an all-absent list of
the batch length, the run is marked complete (not fatal) with loading
cleared, and the aggregate message reports N of N. -/
theorem total_batch_failure (s : EditorState)
    (results : List (Except String Img))
    (hlen : results.length = s.batchImages.length)
    (hpos : 0 < results.length)
    (hall : ∀ r ∈ results, r.isOk = false) :
    (handleBatchApply s results).processedBatchImages =
      List.replicate s.batchImages.length none ∧
    (handleBatchApply s results).isBatchProcessingComplete = true ∧
    (handleBatchApply s results).isLoading = false ∧
    (handleBatchApply s results).error =
      some (batchFailureMessage s.batchImages.length s.batchImages.length) := by
  have hproc : results.map (fun r => match r with
      | .ok f => some f
      | .error _ => (none : Option Img)) =
      List.replicate s.batchImages.length none := by
    rw [List.eq_replicate_iff]
    refine ⟨by rw [List.length_map, hlen], ?_⟩
    intro b hb
    obtain ⟨r, hr, hrb⟩ := List.mem_map.mp hb
    cases r with
    | ok f => simpa [Except.isOk, Except.toBool] using hall _ hr
    | error e => exact hrb.symm
  have hcount : ((results.map fun r => match r with
      | .ok f => some f
      | .error _ => none).filter (fun o => o = none)).length =
      s.batchImages.length := by
    rw [hproc, filter_none_replicate]
  refine ⟨?_, rfl, rfl, ?_⟩
  · simp only [handleBatchApply]
    exact hproc
  · simp only [handleBatchApply, hcount]
    rw [if_pos (by omega)]

/-- Witness for C10: both invocations of a two-image batch fail; the output
is `[none, none]` and the message counts 2 of 2. -/
theorem total_batch_failure_witness :
    (handleBatchApply { baseState with batchImages := ["i0", "i1"] }
      [Except.error "x", Except.error "y"]).processedBatchImages = [none, none] ∧
    (handleBatchApply { baseState with batchImages := ["i0", "i1"] }
      [Except.error "x", Except.error "y"]).error =
      some (batchFailureMessage 2 2) := by
  have h := total_batch_failure { baseState with batchImages := ["i0", "i1"] }
    [Except.error "x", Except.error "y"] rfl (by decide) (by decide)
  exact ⟨h.1.trans rfl, h.2.2.2.trans rfl⟩

/-- C8: while the slider is being dragged, every pointer position — also one
left of or beyond the container — is mapped to the clamp of the relative
percentage, so the stored position always lands inside [0, 100]. -/
theorem comparer_clamp (s : EditorState) (clientX rectLeft rectWidth : ℚ)
    (hdrag : s.isDraggingComparer = true) :
    (handleComparerActionMove s clientX rectLeft rectWidth).compareSliderPosition =
      max 0 (min 100 ((clientX - rectLeft) / rectWidth * 100)) ∧
    0 ≤ (handleComparerActionMove s clientX rectLeft rectWidth).compareSliderPosition ∧
    (handleComparerActionMove s clientX rectLeft rectWidth).compareSliderPosition ≤ 100 := by
  have heq : (handleComparerActionMove s clientX rectLeft rectWidth).compareSliderPosition =
      max 0 (min 100 ((clientX - rectLeft) / rectWidth * 100)) := by
    simp [handleComparerActionMove, hdrag]
  refine ⟨heq, ?_, ?_⟩
  · rw [heq]
    exact le_max_left 0 _
  · rw [heq]
    exact max_le (by norm_num) (min_le_left _ _)

/-- A concrete dragging state for evaluating the comparer clamp. -/
def dragState : EditorState :=
  { baseState with isDraggingComparer := true, isCompareModeActive := true }

/-- Witness for C8: with a 200-wide container at offset 0, a pointer at -50
clamps to 0 and a pointer at 500 clamps to 100. -/
theorem comparer_clamp_witness :
    (handleComparerActionMove dragState (-50) 0 200).compareSliderPosition = 0 ∧
    (handleComparerActionMove dragState 500 0 200).compareSliderPosition = 100 := by
  constructor
  · rw [(comparer_clamp dragState (-50) 0 200 rfl).1]
    norm_num
  · rw [(comparer_clamp dragState 500 0 200 rfl).1]
    norm_num

/-- C9: when the gateway call of an edit operation fails with any classified
failure, the handler converts it into its single user-facing error string,
leaves the history sequence and cursor unmutated, and clears the loading
flag; the handlers are total functions into `EditorState`, so no failure
escapes them as a thrown value. -/
theorem edit_failure_boundary (s : EditorState) (f : ApiFailure)
    (himg : (currentImage s).isSome = true)
    (hprompt : trimmed s.prompt ≠ "")
    (hhot : s.editHotspot.isSome = true) :
    ((handleGenerate s (.error f)).history = s.history ∧
     (handleGenerate s (.error f)).historyIndex = s.historyIndex ∧
     (handleGenerate s (.error f)).isLoading = false ∧
     (handleGenerate s (.error f)).error =
       some ("Failed to generate the image. " ++ apiFailureMessage "edit" f)) ∧
    ((handleApplyFilter s (.error f)).history = s.history ∧
     (handleApplyFilter s (.error f)).historyIndex = s.historyIndex ∧
     (handleApplyFilter s (.error f)).isLoading = false ∧
     (handleApplyFilter s (.error f)).error =
       some ("Failed to apply the filter. " ++ apiFailureMessage "filter" f)) ∧
    ((handleApplyAdjustment s (.error f)).history = s.history ∧
     (handleApplyAdjustment s (.error f)).historyIndex = s.historyIndex ∧
     (handleApplyAdjustment s (.error f)).isLoading = false ∧
     (handleApplyAdjustment s (.error f)).error =
       some ("Failed to apply the adjustment. " ++ apiFailureMessage "adjustment" f)) ∧
    ((handleEnhanceQuality s (.error f)).history = s.history ∧
     (handleEnhanceQuality s (.error f)).historyIndex = s.historyIndex ∧
     (handleEnhanceQuality s (.error f)).isLoading = false ∧
     (handleEnhanceQuality s (.error f)).error =
       some ("Failed to enhance image. " ++ apiFailureMessage "enhancement" f)) := by
  obtain ⟨img, himg'⟩ := Option.isSome_iff_exists.mp himg
  obtain ⟨pt, hpt⟩ := Option.isSome_iff_exists.mp hhot
  refine ⟨⟨?_, ?_, ?_, ?_⟩, ⟨?_, ?_, ?_, ?_⟩, ⟨?_, ?_, ?_, ?_⟩, ⟨?_, ?_, ?_, ?_⟩⟩ <;>
    simp [handleGenerate, handleApplyFilter, handleApplyAdjustment,
      handleEnhanceQuality, himg', hprompt, hpt]

/-- A concrete state ready to issue a localized edit: prompt and hotspot
set. -/
def genReadyState : EditorState :=
  { baseState with prompt := "make sky blue", editHotspot := some (10, 10) }

/-- Witness for C9: an abnormal-stop failure on the localized edit leaves
the single-version history in place and sets the composed error string. -/
theorem edit_failure_boundary_witness :
    (handleGenerate genReadyState
      (.error (ApiFailure.abnormalStop "SAFETY"))).history = ["orig"] ∧
    (handleGenerate genReadyState
      (.error (ApiFailure.abnormalStop "SAFETY"))).error =
      some ("Failed to generate the image. " ++
        apiFailureMessage "edit" (ApiFailure.abnormalStop "SAFETY")) := by
  have h := edit_failure_boundary genReadyState (ApiFailure.abnormalStop "SAFETY")
    (by decide) (by decide) (by decide)
  exact ⟨h.1.1.trans rfl, h.1.2.2.2⟩

end NanoBanana
